import Mathlib

/-!
Verification of the COSCUP session normalization / tag classification pipeline.

The definitions below are shallow embeddings of the Python sources:
  * `classify_session_tags`, `process_session`, `parse_slot_time`,
    `get_answer_value` and the aggregation in `run`
    come from `src/data/fetch_pretalx_data.py`;
  * `generate_fallback_tags` and `aligned_tags_for_session`
    come from `src/data/align_data.py`;
  * `generate_tags` comes from `src/generate_embedded_data.py`.

Raw API records are JSON dictionaries; optional / possibly-missing string
fields are modelled as `Option String`, and Python truthiness tests
(`or` chains, `if not x`) are modelled explicitly (`none` and `""` are
falsy for strings, `none` and `0` for integer ids).
-/

/-- Substring test: `containsSub hay needle` models Python `needle in hay`. -/
def containsSub (hay needle : String) : Bool :=
  hay.data.tails.any (fun t => needle.data.isPrefixOf t)

/-- Models Python `str.lower()` (character-wise lowercasing; the inputs the
pipeline feeds it are ASCII and CJK text, on which the two agree). -/
def py_lower (s : String) : String :=
  String.mk (s.data.map Char.toLower)

/-- Models Python `str.strip()`: drops leading and trailing whitespace. -/
def py_strip (s : String) : String :=
  String.mk (((s.data.dropWhile Char.isWhitespace).reverse.dropWhile
    Char.isWhitespace).reverse)

/-- Models `any(keyword in text for keyword in kws)`. -/
def any_keyword (kws : List String) (text : String) : Bool :=
  kws.any (fun k => containsSub text k)

/-- Models `f"{track_name} {title} {abstract}".lower()` (line 93 of
`fetch_pretalx_data.py`; the same shape is used at line 200 of
`align_data.py`). -/
def session_text (track_name title abstract : String) : String :=
  py_lower (track_name ++ " " ++ title ++ " " ++ abstract)

/-- The twelve keyword rules of `classify_session_tags`
(`fetch_pretalx_data.py` lines 96-130), in source order: the body of each
`if any(...)` block appends the rule's tag. -/
def keyword_tags (text : String) : List String :=
  (if any_keyword ["ai", "machine learning", "neural", "deep learning", "llm", "chatgpt"] text then ["🧠 AI"] else [])
  ++ (if any_keyword ["security", "secure", "attack", "vulnerability", "encryption", "privacy"] text then ["🔒 Security"] else [])
  ++ (if any_keyword ["python", "go", "rust", "javascript", "kotlin", "java", "ruby"] text then ["🗣️ Languages"] else [])
  ++ (if any_keyword ["database", "sql", "postgresql", "mysql", "redis"] text then ["🗃️ Database"] else [])
  ++ (if any_keyword ["devops", "kubernetes", "docker", "cloud", "deployment"] text then ["🚀️ DevOps"] else [])
  ++ (if any_keyword ["hardware", "raspberry pi", "iot", "embedded"] text then ["🛠️ Hardware"] else [])
  ++ (if any_keyword ["blockchain", "web3", "cryptocurrency", "nft"] text then ["⛓️ Web3"] else [])
  ++ (if any_keyword ["network", "tcp", "http", "api"] text then ["🌐 Network"] else [])
  ++ (if any_keyword ["system", "linux", "kernel", "operating"] text then ["💻 System"] else [])
  ++ (if any_keyword ["education", "teaching", "learning", "student"] text then ["🎓 Education"] else [])
  ++ (if any_keyword ["policy", "license", "legal", "governance"] text then ["📜️ Policy"] else [])
  ++ (if any_keyword ["social", "community", "networking", "chat"] text then ["🍻 Social"] else [])

/-- The last-resort default of `classify_session_tags`
(`fetch_pretalx_data.py` lines 132-137): the same default also ends
`generate_fallback_tags` (`align_data.py` lines 236-241). -/
def default_tags (text : String) : List String :=
  if containsSub text "keynote" || containsSub text "opening" then ["🔑 Keynote"]
  else ["💻 System"]

/-- `classify_session_tags` (`fetch_pretalx_data.py` lines 88-139). -/
def classify_session_tags (track_name title abstract : String) : List String :=
  let text := session_text track_name title abstract
  let tags := keyword_tags text
  if tags.isEmpty then default_tags text else tags

/-- The rule table of `classify_session_tags` as explicit data, in
declaration order, pairing each rule's keyword list with its tag. -/
def keyword_rules : List (List String × String) :=
  [ (["ai", "machine learning", "neural", "deep learning", "llm", "chatgpt"], "🧠 AI"),
    (["security", "secure", "attack", "vulnerability", "encryption", "privacy"], "🔒 Security"),
    (["python", "go", "rust", "javascript", "kotlin", "java", "ruby"], "🗣️ Languages"),
    (["database", "sql", "postgresql", "mysql", "redis"], "🗃️ Database"),
    (["devops", "kubernetes", "docker", "cloud", "deployment"], "🚀️ DevOps"),
    (["hardware", "raspberry pi", "iot", "embedded"], "🛠️ Hardware"),
    (["blockchain", "web3", "cryptocurrency", "nft"], "⛓️ Web3"),
    (["network", "tcp", "http", "api"], "🌐 Network"),
    (["system", "linux", "kernel", "operating"], "💻 System"),
    (["education", "teaching", "learning", "student"], "🎓 Education"),
    (["policy", "license", "legal", "governance"], "📜️ Policy"),
    (["social", "community", "networking", "chat"], "🍻 Social") ]

/-- The tags of the rules that fire on `text`, in rule-declaration order. -/
def firing_tags (text : String) : List String :=
  keyword_rules.foldr (fun r acc => (if any_keyword r.1 text then [r.2] else []) ++ acc) []

theorem keyword_tags_eq_firing_tags (text : String) :
    keyword_tags text = firing_tags text := by
  simp only [firing_tags, keyword_rules, List.foldr_cons, List.foldr_nil,
    keyword_tags, List.append_nil, List.append_assoc]

theorem firing_tags_eq_filter_map (text : String) :
    firing_tags text
      = (keyword_rules.filter (fun r => any_keyword r.1 text)).map Prod.snd := by
  rw [firing_tags]
  induction keyword_rules with
  | nil => rfl
  | cons r l ih =>
    rw [List.foldr_cons, ih, List.filter_cons]
    cases h : any_keyword r.1 text <;> simp [h]

/-!
Raw pretalx records and the normalized `Session` shape.
-/

/-- One scheduled time slot of a submission (`submission['slots'][i]`):
`start` / `end` are ISO-8601 instants, `room` is a room id. Fields may be
missing (`none`); Python truthiness also treats `""` and `0` as missing. -/
structure Slot where
  start : Option String
  end_ : Option String
  room : Option Nat
deriving Repr, DecidableEq

/-- One entry of a submission's `answers` list: a question id with an
optional free-text answer. -/
structure Answer where
  question : Nat
  answer : Option String
deriving Repr, DecidableEq

/-- A raw submission record as consumed by `process_session`. -/
structure Submission where
  code : String
  title : String
  speakers : List String
  track : Option Nat
  slots : List Slot
  answers : List Answer
  abstract : Option String
deriving Repr, DecidableEq

/-- Localized name table of a room or track (`info['name']['en']`,
`info['name']['zh-tw']`). -/
structure NameTable where
  en : Option String
  zhTw : Option String
deriving Repr, DecidableEq

/-- The canonical session shape built by `process_session`
(`fetch_pretalx_data.py` lines 198-212). -/
structure Session where
  code : String
  title : String
  speakers : List String
  start : String
  end_ : String
  track : String
  abstract : String
  language : String
  difficulty : String
  room : String
  day : String
  tags : List String
  url : String
deriving Repr, DecidableEq

/-- Python string truthiness for an optional field: `none` and `""` are
falsy. -/
def str_truthy (o : Option String) : Bool :=
  match o with
  | some s => !s.isEmpty
  | none => false

/-- Python integer truthiness for an optional field: `none` and `0` are
falsy. -/
def nat_truthy (o : Option Nat) : Bool :=
  match o with
  | some n => n != 0
  | none => false

/-- Models Python `x or dflt` for `x : Option String`: the default is used
when `x` is `None` or the empty string. -/
def or_else (o : Option String) (dflt : String) : String :=
  match o with
  | some s => if s.isEmpty then dflt else s
  | none => dflt

/-- Extracts `HH:MM` from a well-formed ISO-8601 instant
`YYYY-MM-DDTHH:MM:SS...`; models `datetime.fromisoformat(...)` followed by
`.strftime("%H:%M")` with the timezone discarded, as `parse_slot_time`
does (`fetch_pretalx_data.py` lines 66-79). -/
def hhmm_of_iso (s : String) : String :=
  String.mk ((s.data.drop 11).take 5)

/-- Extracts the day-of-month from a well-formed ISO-8601 instant; models
`datetime.fromisoformat(...).day`. -/
def day_num_of_iso (s : String) : Nat :=
  match s.data.drop 8 with
  | c1 :: c2 :: _ => (c1.toNat - 48) * 10 + (c2.toNat - 48)
  | _ => 0

/-- `parse_slot_time` (`fetch_pretalx_data.py` lines 66-79): returns
`(start_time, end_time, day)` where `day` is `"Aug.<n>"`. -/
def parse_slot_time (slot : Slot) : String × String × String :=
  let st := slot.start.getD ""
  let en := slot.end_.getD ""
  (hhmm_of_iso st, hhmm_of_iso en, "Aug." ++ Nat.repr (day_num_of_iso st))

/-- `get_answer_value` (`fetch_pretalx_data.py` lines 81-86): the stripped
answer of the first entry matching the question id, else `None`. -/
def get_answer_value : List Answer → Nat → Option String
  | [], _ => none
  | a :: rest, qid =>
    if a.question = qid then some (py_strip (a.answer.getD ""))
    else get_answer_value rest qid

/-- The `difficulty_map` dict of `process_session`
(`fetch_pretalx_data.py` lines 179-184): `.get(d, d)` passes unknown
values through verbatim. -/
def difficulty_map (d : String) : String :=
  if d = "Beginner" then "入門"
  else if d = "Intermediate" then "中階"
  else if d = "Advanced" then "進階"
  else d

/-- The `language_map` dict of `process_session`
(`fetch_pretalx_data.py` lines 187-192). -/
def language_map (l : String) : String :=
  if l = "Chinese" then "漢語"
  else if l = "English" then "英語"
  else if l = "Japanese" then "日本語"
  else l

/-- Room display-name resolution (`fetch_pretalx_data.py` lines 156-158):
`room_info.get('name', {}).get('en') or ....get('zh-tw') or f"Room{room_id}"`. -/
def room_name_of (rooms : List (Nat × NameTable)) (rid : Nat) : String :=
  let info := (rooms.lookup rid).getD ⟨none, none⟩
  or_else info.en (or_else info.zhTw ("Room" ++ Nat.repr rid))

/-- Track display-name resolution (`fetch_pretalx_data.py` lines 160-163):
the lookup only happens when `track_id` is truthy, and the name chain is
`zh-tw or en or "General"`. -/
def track_name_of (tracks : List (Nat × NameTable)) (tid : Option Nat) : String :=
  let info :=
    if nat_truthy tid then (tracks.lookup (tid.getD 0)).getD ⟨none, none⟩
    else (⟨none, none⟩ : NameTable)
  or_else info.zhTw (or_else info.en "General")

/-- Speaker display-name resolution (`fetch_pretalx_data.py` lines 166-169):
`speakers.get(speaker_code, {}).get('name', speaker_code)`. -/
def resolve_speaker (speakers : List (String × Option String)) (c : String) : String :=
  match speakers.lookup c with
  | some (some n) => n
  | some none => c
  | none => c

/-- Abstract truncation (`fetch_pretalx_data.py` line 205):
`abstract[:200] + '...' if len(abstract) > 200 else abstract`. -/
def truncate_abstract (raw : String) : String :=
  if raw.length > 200 then String.mk (raw.data.take 200) ++ "..."
  else raw

/-- The body of `process_session` after the slot checks pass
(`fetch_pretalx_data.py` lines 154-212). -/
def build_session (sub : Submission) (speakers : List (String × Option String))
    (rooms : List (Nat × NameTable)) (tracks : List (Nat × NameTable))
    (slot : Slot) : Session :=
  let pt := parse_slot_time slot
  let room_id := slot.room.getD 0
  let track_name := track_name_of tracks sub.track
  let raw := sub.abstract.getD ""
  { code := sub.code
    title := sub.title
    speakers := sub.speakers.map (resolve_speaker speakers)
    start := pt.1
    end_ := pt.2.1
    track := track_name
    abstract := truncate_abstract raw
    language := language_map (or_else (get_answer_value sub.answers 57) "漢語")
    difficulty := difficulty_map (or_else (get_answer_value sub.answers 59) "入門")
    room := room_name_of rooms room_id
    day := pt.2.2
    tags := classify_session_tags track_name sub.title raw
    url := "https://coscup.org/2025/sessions/" ++ sub.code }

/-- `process_session` (`fetch_pretalx_data.py` lines 141-212): skips the
record (returns `none`) when the slot list is falsy or the first slot's
`start`, `end` or `room` is falsy; otherwise builds the Session. -/
def process_session (sub : Submission) (speakers : List (String × Option String))
    (rooms : List (Nat × NameTable)) (tracks : List (Nat × NameTable)) :
    Option Session :=
  match sub.slots with
  | [] => none
  | slot :: _ =>
    if str_truthy slot.start && str_truthy slot.end_ && nat_truthy slot.room then
      some (build_session sub speakers rooms tracks slot)
    else none

/-!
`align_data.py`: the conservative fallback classifier and the tag choice
of `generate_aligned_go_data`.
-/

/-- The eleven keyword rules of `generate_fallback_tags`
(`align_data.py` lines 203-234), in source order. -/
def fallback_keyword_tags (text : String) : List String :=
  (if any_keyword ["security", "secure", "attack", "vulnerability", "encryption"] text then ["🔒 Security"] else [])
  ++ (if any_keyword ["kernel", "linux", "system", "os", "operating"] text then ["💻 System"] else [])
  ++ (if any_keyword ["ai", "machine learning", "neural", "deep learning", "llm"] text then ["🧠 AI"] else [])
  ++ (if any_keyword ["python", "go", "rust", "javascript", "kotlin", "java", "ruby"] text then ["🗣️ Languages"] else [])
  ++ (if any_keyword ["database", "sql", "postgresql", "mysql"] text then ["🗃️ Database"] else [])
  ++ (if any_keyword ["devops", "kubernetes", "docker", "cloud"] text then ["🚀️ DevOps"] else [])
  ++ (if any_keyword ["hardware", "raspberry pi", "iot", "embedded"] text then ["🛠️ Hardware"] else [])
  ++ (if any_keyword ["blockchain", "web3", "cryptocurrency"] text then ["⛓️ Web3"] else [])
  ++ (if any_keyword ["network", "tcp", "http", "api"] text then ["🌐 Network"] else [])
  ++ (if any_keyword ["policy", "license", "legal", "governance"] text then ["📜️ Policy"] else [])
  ++ (if any_keyword ["social", "community", "networking", "chat"] text then ["🍻 Social"] else [])

/-- `generate_fallback_tags` (`align_data.py` lines 195-243). -/
def generate_fallback_tags (s : Session) : List String :=
  let text := session_text s.track s.title s.abstract
  let tags := fallback_keyword_tags text
  if tags.isEmpty then default_tags text else tags

/-- The tag choice of `generate_aligned_go_data` for one session
(`align_data.py` lines 120-129): an entry in the existing known-tags table
for the session's code wins outright; `generate_fallback_tags` is only
used for codes absent from the table. -/
def aligned_tags_for_session (existing_tags : List (String × List String))
    (s : Session) : List String :=
  match existing_tags.lookup s.code with
  | some ts => ts
  | none => generate_fallback_tags s

/-!
`generate_embedded_data.py`: `generate_tags` with its hardcoded two-tag cap.
-/

/-- A session record of `coscup_2025_by_day_room.json` as read by
`generate_tags` via `session.get('track', '')` etc. -/
structure JsonSession where
  track : Option String
  title : Option String
  abstract : Option String
deriving Repr, DecidableEq

/-- The nineteen keyword rules of `generate_tags`
(`generate_embedded_data.py` lines 43-135), in source order; each rule
matches its own keyword lists against the lowercased track, title and
abstract separately. -/
def gen_collected_tags (s : JsonSession) : List String :=
  let track := py_lower (s.track.getD "")
  let title := py_lower (s.title.getD "")
  let abstract := py_lower (s.abstract.getD "")
  (if any_keyword ["ai", "machine learning"] track
      || any_keyword ["ai", "ml", "機器學習", "人工智慧", "llm", "agent"] title
      || any_keyword ["ai", "machine learning", "neural", "model"] abstract then ["TagAI"] else [])
  ++ (if any_keyword ["golang", "python", "ruby", "kotlin", "swift", "jvm", "javascript"] track
      || any_keyword ["go", "python", "ruby", "kotlin", "swift", "java", "js", "programming"] title then ["TagLanguages"] else [])
  ++ (if any_keyword ["security", "tor", "hitcon"] track
      || any_keyword ["security", "hack", "隱私", "安全", "attack", "privacy"] title then ["TagSecurity"] else [])
  ++ (if any_keyword ["blockchain", "web3"] track
      || any_keyword ["blockchain", "web3", "crypto", "defi", "區塊鏈"] title then ["TagWeb3"] else [])
  ++ (if any_keyword ["postgresql", "database"] track
      || any_keyword ["database", "資料庫", "sql", "postgresql"] title then ["TagDatabase"] else [])
  ++ (if any_keyword ["hardware", "firmware", "system"] track
      || any_keyword ["hardware", "firmware", "risc-v", "fpga", "embedded"] title then ["TagHardware"] else [])
  ++ (if any_keyword ["vehicle", "automotive"] track
      || any_keyword ["vehicle", "automotive", "sdv"] title then ["TagVehicle"] else [])
  ++ (if any_keyword ["network", "networking"] track
      || any_keyword ["network", "網路", "tcp", "http", "api"] title then ["TagNetwork"] else [])
  ++ (if any_keyword ["devops", "cloud", "monitoring"] track
      || any_keyword ["devops", "docker", "kubernetes", "ci/cd", "monitoring"] title then ["TagDevOps"] else [])
  ++ (if any_keyword ["system software"] track
      || any_keyword ["kernel", "linux", "system", "系統"] title then ["TagSystem"] else [])
  ++ (if any_keyword ["enterprise", "odoo", "erp"] track
      || any_keyword ["enterprise", "erp", "business"] title then ["TagEnterprise"] else [])
  ++ (if any_keyword ["data", "資料", "analytics", "visualization", "分析"] title then ["TagData"] else [])
  ++ (if any_keyword ["policy", "licensing"] track
      || any_keyword ["policy", "license", "政策", "授權", "開源", "legal"] title then ["TagPolicy"] else [])
  ++ (if any_keyword ["japan", "global", "world tour", "international"] track
      || any_keyword ["fosdem", "japan", "日本", "international", "global"] title then ["TagGlobal"] else [])
  ++ (if any_keyword ["openstreet", "wikidata", "wikipedia"] track
      || any_keyword ["openstreet", "wikidata", "wikipedia", "開放資料"] title then ["TagOpenData"] else [])
  ++ (if any_keyword ["教學", "入門", "beginner", "tutorial", "education", "學習"] title then ["TagEducation"] else [])
  ++ (if any_keyword ["unconference"] track
      || any_keyword ["bof", "hacking corner", "social", "交流"] title then ["TagSocial"] else [])
  ++ (if any_keyword ["side project"] track
      || any_keyword ["side project", "indie", "startup"] title then ["TagSideProject"] else [])
  ++ (if any_keyword ["main session"] track
      || any_keyword ["welcome", "keynote", "closing"] title then ["TagKeynote"] else [])

/-- The tag list of `generate_tags` before the final `[:2]` truncation
(`generate_embedded_data.py` lines 137-139): the collected tags, or the
`TagSystem` default when nothing fired. -/
def gen_tags_all (s : JsonSession) : List String :=
  let tags := gen_collected_tags s
  if tags.isEmpty then ["TagSystem"] else tags

/-- `generate_tags` (`generate_embedded_data.py` lines 35-141); the source
ends with `return tags[:2]`. -/
def generate_tags (s : JsonSession) : List String :=
  (gen_tags_all s).take 2

/-- Follows the claim's words: the truncation cap as a configurable
parameter of the classifier, rather than the source's hardcoded `2`. -/
def generate_tags_cfg (cap : Nat) (s : JsonSession) : List String :=
  (gen_tags_all s).take cap

/-!
Aggregation (`fetch_pretalx_data.py` `run`, lines 347-367): sessions are
appended to their day/room bucket in input order, then each bucket is
sorted by `start` with Python's stable `list.sort`.
-/

/-- Sort key order of `sessions.sort(key=lambda s: s['start'])`. -/
def start_le (s t : Session) : Prop := s.start ≤ t.start

instance : DecidableRel start_le :=
  fun s t => inferInstanceAs (Decidable (s.start ≤ t.start))

instance : IsTotal Session start_le :=
  ⟨fun a b => le_total a.start b.start⟩

instance : IsTrans Session start_le :=
  ⟨fun _ _ _ h h' => le_trans h h'⟩

/-- A stable sort by `start`: the model of Python's stable `list.sort`
with key `s['start']` (insertion sort is stable, and any two stable sorts
under the same key agree). -/
def sort_by_start (l : List Session) : List Session :=
  List.insertionSort start_le l

/-- The day/room bucket contents before sorting: `run` appends matching
sessions in input order, which is exactly a filter of the input batch. -/
def day_room_bucket (l : List Session) (day room : String) : List Session :=
  l.filter (fun s => decide (s.day = day ∧ s.room = room))

/-- The final per-bucket session sequence emitted by `run`. -/
def aggregate_bucket (l : List Session) (day room : String) : List Session :=
  sort_by_start (day_room_bucket l day room)

/-!
Claim theorems.
-/

/-- C2 (amended): for every input triple the tag classifier returns a
non-empty list, and the conservative fallback classifier of the alignment
script does too; when no keyword rule fires the last-resort default is
applied — the Keynote tag when the concatenated lowercased
track+title+abstract text contains "keynote" or "opening", and the System
tag otherwise. -/
theorem classifier_always_nonempty :
    (∀ track_name title abstract,
        classify_session_tags track_name title abstract ≠ [])
    ∧ (∀ s : Session, generate_fallback_tags s ≠ [])
    ∧ (∀ track_name title abstract,
        keyword_tags (session_text track_name title abstract) = [] →
        classify_session_tags track_name title abstract =
          (if containsSub (session_text track_name title abstract) "keynote"
              || containsSub (session_text track_name title abstract) "opening"
            then ["🔑 Keynote"] else ["💻 System"])) := by
  refine ⟨fun t ti ab => ?_, fun s => ?_, fun t ti ab h => ?_⟩
  · simp only [classify_session_tags]
    split
    · simp only [default_tags]; split <;> simp
    · simp_all [List.isEmpty_iff]
  · simp only [generate_fallback_tags]
    split
    · simp only [default_tags]; split <;> simp
    · simp_all [List.isEmpty_iff]
  · simp [classify_session_tags, h, default_tags]

theorem classifier_always_nonempty_witness :
    classify_session_tags "" "opening" "" = ["🔑 Keynote"] := by
  have h := classifier_always_nonempty.2.2 "" "opening" "" (by decide)
  rw [h]; decide

/-- Follows the claim's words for the last-resort default of C2: the
Keynote tag when the session's identifier contains "keynote" or
"opening", and the System tag otherwise. -/
def identifier_default_tags (identifier : String) : List String :=
  if containsSub (py_lower identifier) "keynote"
      || containsSub (py_lower identifier) "opening" then ["🔑 Keynote"]
  else ["💻 System"]

def c2_sub : Submission :=
  { code := "ABC123", title := "opening", speakers := [], track := none,
    slots := [⟨some "2025-08-09T10:00:00+08:00",
               some "2025-08-09T10:40:00+08:00", some 1⟩],
    answers := [], abstract := none }

/-- C2 counterexample: a session whose identifier `"ABC123"` contains
neither "keynote" nor "opening" but whose title is "opening": no keyword
rule fires, and the code assigns the Keynote tag (the default inspects
the concatenated text, not the identifier), while the claim's
identifier-based default predicts the System tag. -/
theorem classifier_default_identifier_counterexample :
    (process_session c2_sub [] [] []).map Session.tags = some ["🔑 Keynote"]
    ∧ identifier_default_tags c2_sub.code = ["💻 System"]
    ∧ (process_session c2_sub [] [] []).map Session.tags
        ≠ some (identifier_default_tags c2_sub.code) := by
  refine ⟨by decide, by decide, by decide⟩

/-- C5: a classifier rule fires exactly when one of its keywords is a
substring of the lowercased concatenated track+title+abstract text; when
at least one rule fires, the result is precisely the tags of the firing
rules in rule-declaration order; and the example text
"COSCUP Security Track: Practical Attack Techniques" yields Security and
not Keynote. -/
theorem classify_rule_semantics :
    (∀ track_name title abstract,
        firing_tags (session_text track_name title abstract) ≠ [] →
        classify_session_tags track_name title abstract
          = firing_tags (session_text track_name title abstract))
    ∧ (∀ text, firing_tags text
          = (keyword_rules.filter (fun r => any_keyword r.1 text)).map Prod.snd)
    ∧ "🔒 Security" ∈
        classify_session_tags "" "COSCUP Security Track: Practical Attack Techniques" ""
    ∧ "🔑 Keynote" ∉
        classify_session_tags "" "COSCUP Security Track: Practical Attack Techniques" "" := by
  refine ⟨fun t ti ab h => ?_, firing_tags_eq_filter_map, by decide, by decide⟩
  simp only [classify_session_tags, keyword_tags_eq_firing_tags]
  simp [List.isEmpty_iff, h]

theorem classify_rule_semantics_witness :
    classify_session_tags "" "COSCUP Security Track: Practical Attack Techniques" ""
      = ["🔒 Security"] := by
  have h := classify_rule_semantics.1
    "" "COSCUP Security Track: Practical Attack Techniques" "" (by decide)
  rw [h]; decide

/-- C6 (amended): the tag cap is hardcoded per generation path, not a
configurable parameter: the JSON-to-Go path (`generate_tags`) always
returns the first two collected tags (so never more than two), while the
pretalx API path (`classify_session_tags`) applies no cap — on the text
"security python database" it returns three tags. -/
theorem tag_cap_amended :
    (∀ s : JsonSession, (generate_tags s).length ≤ 2)
    ∧ (∀ s : JsonSession, generate_tags s = (gen_tags_all s).take 2)
    ∧ classify_session_tags "security python database" "" ""
        = ["🔒 Security", "🗣️ Languages", "🗃️ Database"] := by
  refine ⟨fun s => ?_, fun s => rfl, by decide⟩
  simp [generate_tags, List.length_take]

def c6_json : JsonSession :=
  { track := some "security", title := some "python data", abstract := some "" }

/-- C6 counterexample: the source's cap is the hardcoded constant 2, not
a configurable parameter — on a session firing three rules
(Languages, Security, Data), `generate_tags` returns exactly the first
two tags, disagreeing with the claimed configurable-cap classifier
instantiated at any other cap, e.g. 3. -/
theorem tag_cap_counterexample :
    generate_tags c6_json = ["TagLanguages", "TagSecurity"]
    ∧ generate_tags_cfg 3 c6_json = ["TagLanguages", "TagSecurity", "TagData"]
    ∧ generate_tags c6_json ≠ generate_tags_cfg 3 c6_json := by
  refine ⟨by decide, by decide, by decide⟩

/-- C4: a submission with no time-slot list, or whose (first) slot lacks a
truthy start, end or room assignment, is skipped: `process_session`
returns `none` — a normal outcome of the total function, not an
exception. -/
theorem process_session_skips_incomplete (sub : Submission)
    (speakers : List (String × Option String))
    (rooms tracks : List (Nat × NameTable))
    (h : sub.slots = []
      ∨ ∃ s0 rest, sub.slots = s0 :: rest
          ∧ (str_truthy s0.start = false ∨ str_truthy s0.end_ = false
              ∨ nat_truthy s0.room = false)) :
    process_session sub speakers rooms tracks = none := by
  rcases h with h | ⟨s0, rest, hs, hbad⟩
  · simp only [process_session, h]
  · simp only [process_session, hs]
    rcases hbad with hb | hb | hb <;> simp [hb]

theorem process_session_skips_incomplete_witness :
    process_session ⟨"W4", "t", [], none, [], [], none⟩ [] [] [] = none :=
  process_session_skips_incomplete _ [] [] [] (Or.inl rfl)

/-- C10: `process_session` inspects only the first entry of the slot
list — the result is unchanged when all later slots are dropped — and a
falsy first slot yields `none` no matter what the remaining slots
contain. -/
theorem process_session_first_slot_only (sub : Submission)
    (speakers : List (String × Option String))
    (rooms tracks : List (Nat × NameTable)) :
    process_session sub speakers rooms tracks
      = process_session { sub with slots := sub.slots.take 1 } speakers rooms tracks
    ∧ ∀ s0 rest, sub.slots = s0 :: rest →
        (str_truthy s0.start && str_truthy s0.end_ && nat_truthy s0.room) = false →
        process_session sub speakers rooms tracks = none := by
  obtain ⟨code, title, spk, track, slots, answers, abstract⟩ := sub
  constructor
  · cases slots with
    | nil => rfl
    | cons s0 rest => rfl
  · intro s0 rest hs hbad
    simp only at hs
    subst hs
    simp [process_session, hbad]

def c10_sub : Submission :=
  { code := "W10", title := "t", speakers := [], track := none,
    slots := [⟨none, some "2025-08-09T10:40:00+08:00", some 1⟩,
              ⟨some "2025-08-09T10:00:00+08:00",
               some "2025-08-09T10:40:00+08:00", some 1⟩],
    answers := [], abstract := none }

theorem process_session_first_slot_only_witness :
    process_session c10_sub [] [] [] = none :=
  (process_session_first_slot_only c10_sub [] [] []).2 _ _ rfl (by decide)

/-- C1: when the existing known-tags table has an entry for a session's
code, the alignment generator emits exactly that entry's tag list, and
the keyword classifier is never consulted: the result is unchanged under
arbitrary replacement of the session's track, title and abstract. -/
theorem aligned_tags_override (existing_tags : List (String × List String))
    (s : Session) (ts : List String)
    (h : existing_tags.lookup s.code = some ts) :
    aligned_tags_for_session existing_tags s = ts
    ∧ ∀ track title abstract,
        aligned_tags_for_session existing_tags
          { s with track := track, title := title, abstract := abstract } = ts := by
  obtain ⟨code, title, spk, start, end_, track, ab, lang, diff, room, day, tags, url⟩ := s
  simp only at h
  constructor
  · simp [aligned_tags_for_session, h]
  · intro track' title' abstract'
    simp [aligned_tags_for_session, h]

def c1_existing : List (String × List String) := [("K1", ["🚗 Vehicle"])]

def c1_session : Session :=
  { code := "K1", title := "security python", speakers := [], start := "10:00",
    end_ := "10:40", track := "security", abstract := "attack", language := "漢語",
    difficulty := "入門", room := "RB101", day := "Aug.9", tags := [], url := "u" }

theorem aligned_tags_override_witness :
    aligned_tags_for_session c1_existing c1_session = ["🚗 Vehicle"]
    ∧ aligned_tags_for_session c1_existing
        { c1_session with track := "ai", title := "kernel", abstract := "docker" }
        = ["🚗 Vehicle"] :=
  ⟨(aligned_tags_override c1_existing c1_session _ (by decide)).1,
   (aligned_tags_override c1_existing c1_session _ (by decide)).2 "ai" "kernel" "docker"⟩

theorem filter_orderedInsert (k : String) (a : Session) (l : List Session) :
    (List.orderedInsert start_le a l).filter (fun s => decide (s.start = k))
      = if a.start = k
          then a :: l.filter (fun s => decide (s.start = k))
          else l.filter (fun s => decide (s.start = k)) := by
  induction l with
  | nil =>
    by_cases hak : a.start = k <;>
      simp [List.orderedInsert, List.filter_cons, hak]
  | cons b l ih =>
    by_cases hab : start_le a b
    · by_cases hak : a.start = k <;>
        simp [List.orderedInsert, hab, List.filter_cons, hak]
    · have hba : b.start < a.start := not_le.mp hab
      by_cases hak : a.start = k
      · have hbk : ¬ (b.start = k) := by
          intro hbk
          rw [hbk, hak] at hba
          exact lt_irrefl k hba
        simp [List.orderedInsert, hab, List.filter_cons, hak, hbk, ih]
      · simp [List.orderedInsert, hab, List.filter_cons, hak, ih]

theorem filter_sort_by_start (k : String) (l : List Session) :
    (sort_by_start l).filter (fun s => decide (s.start = k))
      = l.filter (fun s => decide (s.start = k)) := by
  induction l with
  | nil => rfl
  | cons a l ih =>
    simp only [sort_by_start, List.insertionSort] at *
    rw [filter_orderedInsert, ih, List.filter_cons]
    by_cases hak : a.start = k <;> simp [hak]

/-- C3: within each day/room bucket of the aggregate built by `run`, the
session sequence is sorted by `start` non-decreasing, and for every start
value the subsequence of sessions with that start equals the
corresponding subsequence of the bucket in input order (the filter of the
input batch) — i.e. the sort is stable. -/
theorem aggregate_bucket_sorted_stable (l : List Session) (day room k : String) :
    List.Sorted start_le (aggregate_bucket l day room)
    ∧ (aggregate_bucket l day room).filter (fun s => decide (s.start = k))
        = (l.filter (fun s => decide (s.day = day ∧ s.room = room))).filter
            (fun s => decide (s.start = k)) :=
  ⟨List.sorted_insertionSort start_le _, filter_sort_by_start k _⟩

theorem process_session_eq_some (sub : Submission)
    (speakers : List (String × Option String))
    (rooms tracks : List (Nat × NameTable)) (s : Session)
    (h : process_session sub speakers rooms tracks = some s) :
    ∃ slot rest, sub.slots = slot :: rest
      ∧ s = build_session sub speakers rooms tracks slot := by
  cases hs : sub.slots with
  | nil => simp [process_session, hs] at h
  | cons slot rest =>
    refine ⟨slot, rest, rfl, ?_⟩
    simp only [process_session, hs] at h
    split at h
    · exact (Option.some.injEq _ _ ▸ h).symm
    · cases h

theorem or_else_of_falsy (o : Option String) (d : String)
    (h : str_truthy o = false) : or_else o d = d := by
  cases o with
  | none => rfl
  | some s =>
    simp only [str_truthy, Bool.not_eq_false'] at h
    simp [or_else, h]

theorem or_else_of_some_ne (e d : String) (he : e ≠ "") :
    or_else (some e) d = e := by
  have : e.isEmpty = false := by
    cases hb : e.isEmpty
    · rfl
    · exact absurd ((String.isEmpty_iff e).mp hb) he
  simp [or_else, this]

theorem or_else_ne_empty (o : Option String) (d : String) (hd : d ≠ "") :
    or_else o d ≠ "" := by
  cases o with
  | none => exact hd
  | some s =>
    cases hb : s.isEmpty with
    | true => simp [or_else, hb, hd]
    | false =>
      simp only [or_else, hb, Bool.false_eq_true, if_false]
      intro hs
      subst hs
      exact absurd hb (by decide)

theorem room_placeholder_ne_empty (rid : Nat) : ("Room" ++ Nat.repr rid) ≠ "" := by
  intro h
  have hl := congrArg String.length h
  rw [String.length_append] at hl
  have h4 : "Room".length = 4 := rfl
  have h0 : "".length = 0 := rfl
  rw [h4, h0] at hl
  omega

theorem room_name_of_ne_empty (rooms : List (Nat × NameTable)) (rid : Nat) :
    room_name_of rooms rid ≠ "" := by
  unfold room_name_of
  exact or_else_ne_empty _ _ (or_else_ne_empty _ _ (room_placeholder_ne_empty rid))

theorem track_name_of_ne_empty (tracks : List (Nat × NameTable)) (tid : Option Nat) :
    track_name_of tracks tid ≠ "" := by
  unfold track_name_of
  exact or_else_ne_empty _ _ (or_else_ne_empty _ _ (by decide))

/-- C8 (amended): the room display name prefers the `en` locale, then
`zh-tw`, then the synthesized placeholder `"Room<id>"`; the track display
name prefers `zh-tw`, then `en`, then the default `"General"` (not a
`"Room<id>"` placeholder); consequently every Session emitted by
`process_session` has a non-empty room and a non-empty track. -/
theorem room_track_resolution :
    (∀ sub speakers rooms tracks s,
        process_session sub speakers rooms tracks = some s →
        s.room ≠ "" ∧ s.track ≠ "")
    ∧ (∀ rooms rid, (rooms : List (Nat × NameTable)).lookup rid = none →
        room_name_of rooms rid = "Room" ++ Nat.repr rid)
    ∧ (∀ rooms rid nt, (rooms : List (Nat × NameTable)).lookup rid = some nt →
        str_truthy nt.en = false → str_truthy nt.zhTw = false →
        room_name_of rooms rid = "Room" ++ Nat.repr rid)
    ∧ (∀ rooms rid nt e, (rooms : List (Nat × NameTable)).lookup rid = some nt →
        nt.en = some e → e ≠ "" → room_name_of rooms rid = e)
    ∧ (∀ rooms rid nt z, (rooms : List (Nat × NameTable)).lookup rid = some nt →
        str_truthy nt.en = false → nt.zhTw = some z → z ≠ "" →
        room_name_of rooms rid = z)
    ∧ (∀ tracks : List (Nat × NameTable), track_name_of tracks none = "General")
    ∧ (∀ tracks tid nt z, (tracks : List (Nat × NameTable)).lookup tid = some nt →
        tid ≠ 0 → nt.zhTw = some z → z ≠ "" →
        track_name_of tracks (some tid) = z)
    ∧ (∀ tracks tid nt e, (tracks : List (Nat × NameTable)).lookup tid = some nt →
        tid ≠ 0 → str_truthy nt.zhTw = false → nt.en = some e → e ≠ "" →
        track_name_of tracks (some tid) = e)
    ∧ (∀ tracks tid nt, (tracks : List (Nat × NameTable)).lookup tid = some nt →
        str_truthy nt.zhTw = false → str_truthy nt.en = false →
        track_name_of tracks (some tid) = "General") := by
  refine ⟨?_, ?_, ?_, ?_, ?_, ?_, ?_, ?_, ?_⟩
  · intro sub speakers rooms tracks s h
    obtain ⟨slot, rest, hs, hbuild⟩ :=
      process_session_eq_some sub speakers rooms tracks s h
    subst hbuild
    exact ⟨room_name_of_ne_empty _ _, track_name_of_ne_empty _ _⟩
  · intro rooms rid h
    unfold room_name_of
    rw [h]
    rfl
  · intro rooms rid nt h hen hzh
    simp [room_name_of, h, or_else_of_falsy _ _ hen, or_else_of_falsy _ _ hzh]
  · intro rooms rid nt e h hen he
    simp [room_name_of, h, hen, or_else_of_some_ne e _ he]
  · intro rooms rid nt z h hen hzh hz
    simp [room_name_of, h, or_else_of_falsy _ _ hen, hzh,
      or_else_of_some_ne z _ hz]
  · intro tracks
    rfl
  · intro tracks tid nt z h htid hzh hz
    have : nat_truthy (some tid) = true := by simp [nat_truthy, htid]
    simp [track_name_of, this, h, hzh, or_else_of_some_ne z _ hz]
  · intro tracks tid nt e h htid hzh hen he
    have : nat_truthy (some tid) = true := by simp [nat_truthy, htid]
    simp [track_name_of, this, h, or_else_of_falsy _ _ hzh, hen,
      or_else_of_some_ne e _ he]
  · intro tracks tid nt h hzh hen
    by_cases htid : tid = 0
    · subst htid
      rfl
    · have : nat_truthy (some tid) = true := by simp [nat_truthy, htid]
      simp [track_name_of, this, h, or_else_of_falsy _ _ hzh,
        or_else_of_falsy _ _ hen]

theorem room_track_resolution_witness :
    room_name_of [] 5 = "Room" ++ Nat.repr 5
    ∧ track_name_of [] none = "General"
    ∧ room_name_of [(3, ⟨some "RB101", none⟩)] 3 = "RB101" := by
  obtain ⟨h1, h2, h3, h4, h5, h6, h7, h8, h9⟩ := room_track_resolution
  exact ⟨h2 [] 5 rfl, h6 [],
    h4 [(3, ⟨some "RB101", none⟩)] 3 ⟨some "RB101", none⟩ "RB101" (by decide)
      rfl (by decide)⟩

def ok_slot : Slot :=
  ⟨some "2025-08-09T10:00:00+08:00", some "2025-08-09T10:40:00+08:00", some 1⟩

def c8_sub : Submission :=
  { code := "C8", title := "hello", speakers := [], track := some 7,
    slots := [ok_slot], answers := [], abstract := none }

/-- C8 counterexample: for a session whose track id (7) is absent from the
track table, the emitted track is `"General"`, not a synthesized
`"Room<id>"` placeholder as the claim states for both room and track. -/
theorem track_placeholder_counterexample :
    (process_session c8_sub [] [] []).map Session.track = some "General"
    ∧ (some "General" : Option String) ≠ some ("Room" ++ Nat.repr 7) := by
  refine ⟨by decide, by decide⟩

/-- C7: the Normalizer maps difficulty and language through fixed
vocabulary tables (Beginner→入門, Intermediate→中階, Advanced→進階;
Chinese→漢語, English→英語, Japanese→日本語), and any value outside the
table passes through verbatim; the emitted Session's difficulty and
language are exactly the mapped values of the (defaulted) raw answers. -/
theorem difficulty_language_mapping :
    (∀ sub speakers rooms tracks s,
        process_session sub speakers rooms tracks = some s →
        s.difficulty
            = difficulty_map (or_else (get_answer_value sub.answers 59) "入門")
        ∧ s.language
            = language_map (or_else (get_answer_value sub.answers 57) "漢語"))
    ∧ difficulty_map "Beginner" = "入門"
    ∧ difficulty_map "Intermediate" = "中階"
    ∧ difficulty_map "Advanced" = "進階"
    ∧ language_map "Chinese" = "漢語"
    ∧ language_map "English" = "英語"
    ∧ language_map "Japanese" = "日本語"
    ∧ (∀ v, v ≠ "Beginner" → v ≠ "Intermediate" → v ≠ "Advanced" →
        difficulty_map v = v)
    ∧ (∀ v, v ≠ "Chinese" → v ≠ "English" → v ≠ "Japanese" →
        language_map v = v) := by
  refine ⟨?_, by decide, by decide, by decide, by decide, by decide, by decide,
    ?_, ?_⟩
  · intro sub speakers rooms tracks s h
    obtain ⟨slot, rest, hs, hbuild⟩ :=
      process_session_eq_some sub speakers rooms tracks s h
    subst hbuild
    exact ⟨rfl, rfl⟩
  · intro v h1 h2 h3
    simp [difficulty_map, h1, h2, h3]
  · intro v h1 h2 h3
    simp [language_map, h1, h2, h3]

def c7_sub : Submission :=
  { code := "C7", title := "hello", speakers := [], track := none,
    slots := [ok_slot], answers := [⟨59, some "Beginner"⟩], abstract := none }

theorem difficulty_language_mapping_witness :
    (process_session c7_sub [] [] []).map Session.difficulty = some "入門" := by
  have hp : process_session c7_sub [] [] []
      = some (build_session c7_sub [] [] [] ok_slot) := rfl
  have h := (difficulty_language_mapping.1 c7_sub [] [] [] _ hp).1
  rw [hp]
  show some (build_session c7_sub [] [] [] ok_slot).difficulty = some "入門"
  rw [h]
  decide

/-- C9: the emitted abstract is the raw abstract unchanged when its
length is at most 200 characters, and otherwise exactly the first 200
characters followed by the ellipsis marker "..."; its length is therefore
bounded by 203. -/
theorem abstract_truncation (sub : Submission)
    (speakers : List (String × Option String))
    (rooms tracks : List (Nat × NameTable)) (s : Session)
    (h : process_session sub speakers rooms tracks = some s) :
    ((sub.abstract.getD "").length ≤ 200 → s.abstract = sub.abstract.getD "")
    ∧ ((sub.abstract.getD "").length > 200 →
        s.abstract = String.mk ((sub.abstract.getD "").data.take 200) ++ "...")
    ∧ s.abstract.length ≤ 203 := by
  obtain ⟨slot, rest, hs, hbuild⟩ :=
    process_session_eq_some sub speakers rooms tracks s h
  subst hbuild
  have habs : (build_session sub speakers rooms tracks slot).abstract
      = truncate_abstract (sub.abstract.getD "") := rfl
  rw [habs]
  refine ⟨fun hle => ?_, fun hgt => ?_, ?_⟩
  · rw [truncate_abstract, if_neg (by omega)]
  · rw [truncate_abstract, if_pos hgt]
  · by_cases hgt : (sub.abstract.getD "").length > 200
    · rw [truncate_abstract, if_pos hgt]
      have h1 : (String.mk ((sub.abstract.getD "").data.take 200) ++ "...").length
          = ((sub.abstract.getD "").data.take 200).length + 3 := by
        rw [String.length_append]
        rfl
      rw [h1, List.length_take]
      omega
    · rw [truncate_abstract, if_neg hgt]
      omega

def c9_sub : Submission :=
  { code := "C9", title := "t", speakers := [], track := none,
    slots := [ok_slot], answers := [],
    abstract := some (String.mk (List.replicate 201 'b')) }

set_option maxRecDepth 8192 in
theorem abstract_truncation_witness :
    (process_session c9_sub [] [] []).map Session.abstract
      = some (String.mk (List.replicate 200 'b') ++ "...") := by
  have hp : process_session c9_sub [] [] []
      = some (build_session c9_sub [] [] [] ok_slot) := rfl
  have h := (abstract_truncation c9_sub [] [] [] _ hp).2.1 (by decide)
  rw [hp]
  show some (build_session c9_sub [] [] [] ok_slot).abstract
      = some (String.mk (List.replicate 200 'b') ++ "...")
  rw [h]
  decide
